import Mathlib

/-!
Verification of the kanji-game backend (FastAPI service forwarding handwriting
images to a multimodal model).  The definitions below are a shallow embedding
of `src/backend/kanji.py` (the grading endpoints) and `src/backend/yah.py`
(the classification endpoints, data-URL construction and label extraction).
Python JSON values are modelled by the inductive `Json`; Python `None` is
`Json.null` (FastAPI serialises `None` as JSON `null`); exceptions raised
inside the `/classify` `try:` block are modelled with `Except`.
The external model call (`llm.invoke`) and `json.loads` are modelled as
function parameters of the handlers, since both are external library code.
-/

namespace TheKanjiGame

/-- JSON values as produced by `json.loads` / consumed by `JSONResponse`.
Numbers are modelled as integers (no claim exercises floats). -/
inductive Json where
  | null : Json
  | bool : Bool → Json
  | num : Int → Json
  | str : String → Json
  | arr : List Json → Json
  | obj : List (String × Json) → Json

/-- `dict.get(key)`: first binding of `key`, `none` when the key is absent. -/
def lookupJson : List (String × Json) → String → Option Json
  | [], _ => none
  | (k, v) :: rest, key => if k = key then some v else lookupJson rest key

/-- Python truthiness of a JSON value (`bool(x)`): `None`, `False`, `0`,
`""`, `[]` and `{}` are falsy, everything else truthy. -/
def pyTruthy : Json → Bool
  | .null => false
  | .bool b => b
  | .num n => n != 0
  | .str s => !s.isEmpty
  | .arr xs => !xs.isEmpty
  | .obj fs => !fs.isEmpty

/-- Truthiness of a `dict.get` result (`None` when the key is absent). -/
def pyTruthyOpt : Option Json → Bool
  | none => false
  | some j => pyTruthy j

/-- The whitespace set of Python's `str.strip()`. -/
def pyIsSpace (c : Char) : Bool :=
  c = ' ' || c = '\t' || c = '\n' || c = '\r' || c = '\x0b' || c = '\x0c'

/-- Drop the characters satisfying `p` from both ends of a character list
(the core of Python's `str.strip`). -/
def stripEnds (p : Char → Bool) (cs : List Char) : List Char :=
  ((cs.dropWhile p).reverse.dropWhile p).reverse

/-- Python `s.strip()` (default whitespace stripping). -/
def pyStripWs (s : String) : String :=
  (stripEnds pyIsSpace s.data).asString

/-- Python `s.strip('"')`. -/
def pyStripQuote (s : String) : String :=
  (stripEnds (fun c => c = '"') s.data).asString

mutual

/-- Python `repr` of a JSON value (used by `str` on dicts and lists). -/
def pyRepr : Json → String
  | .null => "None"
  | .bool true => "True"
  | .bool false => "False"
  | .num n => toString n
  | .str s => "'" ++ s ++ "'"
  | .arr xs => "[" ++ pyReprSeq xs ++ "]"
  | .obj fs => "\x7b" ++ pyReprPairs fs ++ "\x7d"

/-- Comma-separated `repr`s of list elements. -/
def pyReprSeq : List Json → String
  | [] => ""
  | [x] => pyRepr x
  | x :: y :: rest => pyRepr x ++ ", " ++ pyReprSeq (y :: rest)

/-- Comma-separated `'key': repr(value)` renderings of dict entries. -/
def pyReprPairs : List (String × Json) → String
  | [] => ""
  | [(k, v)] => "'" ++ k ++ "': " ++ pyRepr v
  | (k, v) :: p :: rest => "'" ++ k ++ "': " ++ pyRepr v ++ ", " ++ pyReprPairs (p :: rest)

end

/-- Python `str(x)`: identity on strings, `repr` otherwise. -/
def pyStr : Json → String
  | .str s => s
  | j => pyRepr j

/-! ## Classification label extraction (`yah.py`, `/classify` and `/classify_url`)

The extraction runs inside `try: ... except Exception: label = None`.
`Except.error` models a raised exception, which the handler converts to a
`None` label. -/

/-- The `for c in content:` scan of `/classify`: first part whose
`"type"` is `"output_text"` or `"text"` yields its `"text"` value
(`None` when that key is missing); a non-dict part raises
(`c.get` → `AttributeError`); an exhausted loop leaves the label `None`. -/
def scanParts : List Json → Except String Json
  | [] => .ok .null
  | c :: rest =>
    match c with
    | .obj cf =>
      match lookupJson cf "type" with
      | some (.str t) =>
        if t == "output_text" || t == "text" then
          .ok ((lookupJson cf "text").getD .null)
        else scanParts rest
      | _ => scanParts rest
    | _ => .error "AttributeError: get"

/-- Resolution of `msg` in `/classify`:
`choices = vllm_resp.get("choices")`, `if choices and len(choices) > 0:`,
`msg = choices[0].get("message") or choices[0]`.
Returns `ok none` when the `if` body is skipped (label stays `None`),
`ok (some msg)` when `msg` is resolved, `.error` when the code raises
(`.get` on a non-dict, `len`/indexing on a truthy non-list). -/
def resolve_msg (vllm_resp : Json) : Except String (Option Json) :=
  match vllm_resp with
  | .obj fs =>
    match lookupJson fs "choices" with
    | none => .ok none
    | some choices =>
      if pyTruthy choices then
        match choices with
        | .arr (c :: _) =>
          match c with
          | .obj cf =>
            match lookupJson cf "message" with
            | some m => .ok (some (if pyTruthy m then m else .obj cf))
            | none => .ok (some (.obj cf))
          | _ => .error "AttributeError: get"
        | .arr [] => .ok none
        | _ => .error "TypeError: len"
      else .ok none
  | _ => .error "AttributeError: get"

/-- `content = msg.get("content") if isinstance(msg, dict) else None`
followed by the string / list / fallback branches of `/classify`.
Missing or non-string, non-list `content` falls back to `str(msg)`. -/
def label_of_msg (msg : Json) : Except String Json :=
  match msg with
  | .obj mf =>
    match lookupJson mf "content" with
    | some (.str s) => .ok (.str (pyStripQuote (pyStripWs s)))
    | some (.arr parts) => scanParts parts
    | _ => .ok (.str (pyStr (.obj mf)))
  | _ => .ok (.str (pyStr msg))

/-- The body of the `try:` block of the label extraction in `/classify`
(and its verbatim copy in `/classify_url`). -/
def extract_label_try (vllm_resp : Json) : Except String Json :=
  match resolve_msg vllm_resp with
  | .error e => .error e
  | .ok none => .ok .null
  | .ok (some msg) => label_of_msg msg

/-- The complete label extraction: `try`-body plus
`except Exception: label = None`. -/
def extract_label (vllm_resp : Json) : Json :=
  match extract_label_try vllm_resp with
  | .ok l => l
  | .error _ => .null

/-- `JSONResponse({"vllm_raw": vllm_resp, "label": label})` of `/classify`. -/
def classify_label_response (vllm_resp : Json) : Json :=
  .obj [("vllm_raw", vllm_resp), ("label", extract_label vllm_resp)]

/-- Projection used to state the claims about the extractor: the `content`
of the first choice's resolved message, exactly when the extraction code
reaches its `content` branches (`some Json.null` models a resolved message
dict without a `"content"` key, matching Python's `None`). -/
def firstChoiceContent (vllm_resp : Json) : Option Json :=
  match resolve_msg vllm_resp with
  | .ok (some (.obj mf)) => some ((lookupJson mf "content").getD .null)
  | _ => none

/-- `p.get("type") in ("output_text", "text")` for a part of a content
list (false for non-dict parts). -/
def partIsText (p : Json) : Bool :=
  match p with
  | .obj pf =>
    match lookupJson pf "type" with
    | some (.str t) => t == "output_text" || t == "text"
    | _ => false
  | _ => false

/-- The `"text"` value of a part (`Json.null` when absent). -/
def partTextVal (p : Json) : Json :=
  match p with
  | .obj pf => (lookupJson pf "text").getD .null
  | _ => .null

/-! ## Grading endpoint (`kanji.py`, `POST /grade-kanji`) -/

/-- One element of a `HumanMessage` / chat-payload `content` list. -/
inductive ContentPart where
  | text : String → ContentPart
  | image_url : String → ContentPart
deriving DecidableEq

/-- The kind of a content part, for order/shape statements. -/
inductive PartKind where
  | text : PartKind
  | image : PartKind
deriving DecidableEq

/-- Forget the payload of a content part. -/
def partKind : ContentPart → PartKind
  | .text _ => .text
  | .image_url _ => .image

/-- A `langchain` `HumanMessage` (a single user chat message). -/
structure HumanMessage where
  content : List ContentPart
deriving DecidableEq

/-- The grading prompt f-string of `grade_kanji` (kanji.py), with
`{target_word}` interpolated. -/
def kanjiPromptText (tw : String) : String :=
  "\n                You are a friendly and lenient Kanji handwriting judge.\n\n                Target English word: "
  ++ tw ++
  "\n\n                1. Convert the English target word into its correct Kanji.\n                2. Compare the student's handwritten Kanji drawing from the image.\n\n                ### VERY IMPORTANT JUDGING RULES:\n                - Do NOT judge based on stroke thickness.\n                - Do NOT judge based on perfect proportions.\n                - Small distortions or messy handwriting are acceptable.\n                - As long as the overall *shape* and *structure* look close to the correct Kanji, mark it as correct.\n                - Only mark incorrect if the drawing is clearly NOT the intended Kanji.\n\n                ### What counts as correct:\n                - Rough shape is correct  \n                - Strokes are present but slightly misplaced  \n                - Shape resembles the correct kanji even if messy  \n                - The kanji is rotated slightly or uneven — still acceptable  \n\n                ### Respond ONLY in strict JSON (no explanations outside JSON):\n                \x7b\n                \"correct\": true/false,\n                \"kanji_correct\": \"THE_CORRECT_KANJI\",\n                \"kanji_detected\": \"KANJI_DETECTED_FROM_IMAGE\",\n                \"pronouce_in_romanji\": \"Pronunciation in romanji, easy for user to say it\",\n                \"pronouce_in_hiragana\": \"Pronunciation in hiragana, easy for user to say it\",\n                \"reason\": \"Very short, friendly explanation\"\n                \x7d\n                "

/-- The `HumanMessage` built by `grade_kanji` (kanji.py): a text part with
the prompt, then an image part with the base64 data URL.  `target_word` and
`image` come from the request body, interpolated via `str()`. -/
def grade_kanji_message (target_word image_b64 : Json) : HumanMessage :=
  ⟨[ContentPart.text (kanjiPromptText (pyStr target_word)),
    ContentPart.image_url ("data:image/png;base64," ++ pyStr image_b64)]⟩

/-- A `fastapi.HTTPException` raised by a handler. -/
structure HTTPError where
  status_code : Nat
  detail : String
deriving DecidableEq

/-- Validation and message construction of `grade_kanji` (kanji.py): the
code before `llm.invoke`.  `if not target_word or not image_b64:` raises a
400 before any model call. -/
def grade_kanji_request (data : List (String × Json)) :
    Except HTTPError HumanMessage :=
  let target_word := lookupJson data "target_word"
  let image_b64 := lookupJson data "image"
  if !pyTruthyOpt target_word || !pyTruthyOpt image_b64 then
    .error ⟨400, "Missing word or image"⟩
  else
    .ok (grade_kanji_message (target_word.getD .null) (image_b64.getD .null))

/-- The code of `grade_kanji` after `llm.invoke`, as a function of the
parse outcome of the stripped reply: `json.loads` failure raises a 500;
on success each response field is `parsed.get(field)`.  A successful parse
to a non-dict makes `parsed.get` raise outside any `try`, which FastAPI
turns into a plain 500. -/
def grade_kanji_response (parsed : Option Json) :
    Except HTTPError (List (String × Json)) :=
  match parsed with
  | none => .error ⟨500, "Model reutrned invalid JSON"⟩
  | some (.obj fs) =>
    .ok [("correct", (lookupJson fs "correct").getD .null),
         ("kanji_detected", (lookupJson fs "kanji_detected").getD .null),
         ("kanji_correct", (lookupJson fs "kanji_correct").getD .null),
         ("pronouce_in_romanji", (lookupJson fs "pronouce_in_romanji").getD .null),
         ("pronouce_in_hiragana", (lookupJson fs "pronouce_in_hiragana").getD .null),
         ("similarity", (lookupJson fs "similarity").getD .null),
         ("reason", (lookupJson fs "reason").getD .null)]
  | some _ => .error ⟨500, "Internal Server Error"⟩

/-- The whole `grade_kanji` handler (kanji.py).  `parse` models
`json.loads` (`none` = raised `ValueError`); `llm` models `llm.invoke`,
returning the reply's content string; the reply is `.strip()`ped before
parsing.  The model is invoked only when validation succeeds. -/
def grade_kanji (parse : String → Option Json) (llm : HumanMessage → String)
    (data : List (String × Json)) : Except HTTPError (List (String × Json)) :=
  match grade_kanji_request data with
  | .error e => .error e
  | .ok msg => grade_kanji_response (parse (pyStripWs (llm msg)))

/-! ## Request assembly of `yah.py` (`call_vllm_chat_completion`, data URLs) -/

/-- One message of the OpenAI-compatible chat payload. -/
structure ApiMessage where
  role : String
  content : List ContentPart
deriving DecidableEq

/-- The chat-completions request body built by
`call_vllm_chat_completion` (yah.py). -/
structure ChatPayload where
  model : String
  messages : List ApiMessage
  temperature : Nat
deriving DecidableEq

/-- The classification prompt built by `/classify` and `/classify_url`. -/
def classify_prompt : String :=
  "Classify this image in ONE short label (single word or short phrase). Return only the label."

/-- The payload dict of `call_vllm_chat_completion` (yah.py).  Note that
the function receives `prompt_text` but the payload's text part is the
hard-coded string `"Classify this image."`. -/
def call_vllm_chat_completion_payload (model_name data_url prompt_text : String) :
    ChatPayload :=
  { model := model_name
    messages := [{ role := "user"
                   content := [ContentPart.image_url data_url,
                               ContentPart.text "Classify this image."] }]
    temperature := 0 }

/-- The text payloads of a part list, in order. -/
def partTexts (parts : List ContentPart) : List String :=
  parts.filterMap fun p => match p with
    | .text t => some t
    | .image_url _ => none

/-! ## Base64 (`base64.b64encode` / `b64decode`) and data URLs -/

/-- The standard base64 alphabet. -/
def b64Alphabet : List Char :=
  "ABCDEFGHIJKLMNOPQRSTUVWXYZabcdefghijklmnopqrstuvwxyz0123456789+/".data

/-- The character encoding a six-bit group. -/
def sextetChar (n : Nat) : Char :=
  b64Alphabet.getD n 'A'

/-- The six-bit value of an alphabet character (`none` off-alphabet). -/
def charSextet (c : Char) : Option Nat :=
  let i := b64Alphabet.indexOf c
  if i < 64 then some i else none

/-- `base64.b64encode`: bytes in groups of three become four characters;
a final group of two or one byte is padded with `=` / `==`. -/
def b64EncodeChunks : List Nat → List Char
  | b0 :: b1 :: b2 :: rest =>
    let n := b0 * 65536 + b1 * 256 + b2
    sextetChar (n / 262144) :: sextetChar (n / 4096 % 64) ::
      sextetChar (n / 64 % 64) :: sextetChar (n % 64) :: b64EncodeChunks rest
  | [b0, b1] =>
    let n := b0 * 1024 + b1 * 4
    [sextetChar (n / 4096), sextetChar (n / 64 % 64), sextetChar (n % 64), '=']
  | [b0] =>
    let n := b0 * 16
    [sextetChar (n / 64), sextetChar (n % 64), '=', '=']
  | [] => []

/-- Decoding of one full (unpadded) four-character group. -/
def decode4full (c0 c1 c2 c3 : Char) : Option (List Nat) :=
  match charSextet c0, charSextet c1, charSextet c2, charSextet c3 with
  | some s0, some s1, some s2, some s3 =>
    some [s0 * 4 + s1 / 16, s1 % 16 * 16 + s2 / 4, s2 % 4 * 64 + s3]
  | _, _, _, _ => none

/-- Decoding of the final four-character group, handling `=` padding. -/
def decodeLast4 (c0 c1 c2 c3 : Char) : Option (List Nat) :=
  if c3 = '=' then
    if c2 = '=' then
      match charSextet c0, charSextet c1 with
      | some s0, some s1 => some [s0 * 4 + s1 / 16]
      | _, _ => none
    else
      match charSextet c0, charSextet c1, charSextet c2 with
      | some s0, some s1, some s2 =>
        some [s0 * 4 + s1 / 16, s1 % 16 * 16 + s2 / 4]
      | _, _, _ => none
  else decode4full c0 c1 c2 c3

/-- `base64.b64decode` on a well-formed base64 string: groups of four
characters, padding allowed only in the final group. -/
def b64DecodeChunks : List Char → Option (List Nat)
  | [] => some []
  | c0 :: c1 :: c2 :: c3 :: rest =>
    if rest.isEmpty then decodeLast4 c0 c1 c2 c3
    else
      match decode4full c0 c1 c2 c3, b64DecodeChunks rest with
      | some h, some t => some (h ++ t)
      | _, _ => none
  | _ => none

/-- `image_bytes_to_data_url` (yah.py): base64-encode the bytes and build
`f"data:\x7bmime\x7d;base64,\x7bb64\x7d"`.  The MIME determination
(`mimetypes.guess_type`, PIL sniffing, `"image/jpeg"` fallback) is
external-library code and enters here as the already-determined `mime`. -/
def image_bytes_to_data_url (mime : String) (bytes_data : List Nat) : String :=
  "data:" ++ mime ++ ";base64," ++ (b64EncodeChunks bytes_data).asString

/-- The suffix after the first occurrence of `marker` (`none` when the
marker does not occur). -/
def splitAfterMarker (marker : List Char) : List Char → Option (List Char)
  | [] => none
  | c :: cs =>
    if marker.isPrefixOf (c :: cs) then some ((c :: cs).drop marker.length)
    else splitAfterMarker marker cs

/-- The payload of a data URL: everything after the first `"base64,"`. -/
def payloadAfterBase64Marker (url : String) : Option String :=
  (splitAfterMarker "base64,".data url.data).map List.asString

/-! ## Theorems -/

/-- C1: whenever validation succeeds but the model's (stripped) reply does
not parse as JSON, `grade_kanji` fails with the distinguished 500 error
`"Model reutrned invalid JSON"` (sic) and returns no structured fields. -/
theorem claim_C1_invalid_json_yields_500 (parse : String → Option Json)
    (llm : HumanMessage → String) (data : List (String × Json))
    (msg : HumanMessage) (hreq : grade_kanji_request data = .ok msg)
    (hparse : parse (pyStripWs (llm msg)) = none) :
    grade_kanji parse llm data = .error ⟨500, "Model reutrned invalid JSON"⟩ := by
  unfold grade_kanji
  rw [hreq]
  show grade_kanji_response (parse (pyStripWs (llm msg))) = _
  rw [hparse]
  rfl

/-- Witness for C1: a request with both fields set, a model reply that
parses as nothing, and the resulting 500. -/
theorem claim_C1_witness :
    grade_kanji (fun _ => none) (fun _ => "oops")
      [("target_word", Json.str "water"), ("image", Json.str "QUJD")] =
      .error ⟨500, "Model reutrned invalid JSON"⟩ :=
  claim_C1_invalid_json_yields_500 (fun _ => none) (fun _ => "oops")
    [("target_word", Json.str "water"), ("image", Json.str "QUJD")]
    (grade_kanji_message (Json.str "water") (Json.str "QUJD")) rfl rfl

/-- C2: a request body missing `target_word` or `image` is rejected with
the 400 error before the model is invoked: the request phase already
fails, and the handler's result is that 400 for every `parse` and `llm`. -/
theorem claim_C2_missing_fields_400 (parse : String → Option Json)
    (llm : HumanMessage → String) (data : List (String × Json))
    (h : lookupJson data "target_word" = none ∨ lookupJson data "image" = none) :
    grade_kanji_request data = .error ⟨400, "Missing word or image"⟩ ∧
    grade_kanji parse llm data = .error ⟨400, "Missing word or image"⟩ := by
  have hreq : grade_kanji_request data = .error ⟨400, "Missing word or image"⟩ := by
    simp only [grade_kanji_request]
    rcases h with h | h <;> rw [h] <;> simp [pyTruthyOpt]
  refine ⟨hreq, ?_⟩
  unfold grade_kanji
  rw [hreq]

/-- Witness for C2: a body carrying only `image` is rejected with 400. -/
theorem claim_C2_witness :
    grade_kanji (fun _ => none) (fun _ => "") [("image", Json.str "QUJD")] =
      .error ⟨400, "Missing word or image"⟩ :=
  (claim_C2_missing_fields_400 (fun _ => none) (fun _ => "")
    [("image", Json.str "QUJD")] (Or.inl rfl)).2

/-- C10: a `target_word` or `image` present but equal to `""` is falsy in
Python, so the handler rejects it with the same 400 as an absent field,
again for every `parse` and `llm` (the model is never invoked). -/
theorem claim_C10_empty_fields_400 (parse : String → Option Json)
    (llm : HumanMessage → String) (data : List (String × Json))
    (h : lookupJson data "target_word" = some (Json.str "") ∨
         lookupJson data "image" = some (Json.str "")) :
    grade_kanji_request data = .error ⟨400, "Missing word or image"⟩ ∧
    grade_kanji parse llm data = .error ⟨400, "Missing word or image"⟩ := by
  have hempty : pyTruthyOpt (some (Json.str "")) = false := rfl
  have hreq : grade_kanji_request data = .error ⟨400, "Missing word or image"⟩ := by
    simp only [grade_kanji_request]
    rcases h with h | h <;> rw [h] <;> simp [hempty]
  refine ⟨hreq, ?_⟩
  unfold grade_kanji
  rw [hreq]

/-- Witness for C10: an empty `target_word` is rejected with 400. -/
theorem claim_C10_witness :
    grade_kanji (fun _ => none) (fun _ => "")
      [("target_word", Json.str ""), ("image", Json.str "QUJD")] =
      .error ⟨400, "Missing word or image"⟩ :=
  (claim_C10_empty_fields_400 (fun _ => none) (fun _ => "")
    [("target_word", Json.str ""), ("image", Json.str "QUJD")] (Or.inl rfl)).2

/-- C6 (amended): when the model reply parses to a JSON object, every
response field is exactly `parsed.get(field)` (pure passthrough) for the
seven keys `correct`, `kanji_detected`, `kanji_correct`,
`pronouce_in_romanji`, `pronouce_in_hiragana`, `similarity`, `reason`;
keys absent from the parsed object surface as `null`. -/
theorem claim_C6_passthrough (parse : String → Option Json)
    (llm : HumanMessage → String) (data : List (String × Json))
    (msg : HumanMessage) (fs : List (String × Json))
    (hreq : grade_kanji_request data = .ok msg)
    (hparse : parse (pyStripWs (llm msg)) = some (.obj fs)) :
    grade_kanji parse llm data = .ok
      [("correct", (lookupJson fs "correct").getD .null),
       ("kanji_detected", (lookupJson fs "kanji_detected").getD .null),
       ("kanji_correct", (lookupJson fs "kanji_correct").getD .null),
       ("pronouce_in_romanji", (lookupJson fs "pronouce_in_romanji").getD .null),
       ("pronouce_in_hiragana", (lookupJson fs "pronouce_in_hiragana").getD .null),
       ("similarity", (lookupJson fs "similarity").getD .null),
       ("reason", (lookupJson fs "reason").getD .null)] := by
  unfold grade_kanji
  rw [hreq]
  show grade_kanji_response (parse (pyStripWs (llm msg))) = _
  rw [hparse]
  rfl

/-- Witness for C6: the spec's kanji example, showing the response is the
example object plus `similarity`, `pronouce_in_romanji` and
`pronouce_in_hiragana` all `null`. -/
theorem claim_C6_witness :
    grade_kanji
      (fun _ => some (Json.obj [("correct", Json.bool true),
        ("kanji_correct", Json.str "水"), ("kanji_detected", Json.str "水"),
        ("reason", Json.str "close match")]))
      (fun _ => "raw")
      [("target_word", Json.str "water"), ("image", Json.str "QUJD")] =
    .ok [("correct", Json.bool true), ("kanji_detected", Json.str "水"),
         ("kanji_correct", Json.str "水"), ("pronouce_in_romanji", Json.null),
         ("pronouce_in_hiragana", Json.null), ("similarity", Json.null),
         ("reason", Json.str "close match")] :=
  claim_C6_passthrough
    (fun _ => some (Json.obj [("correct", Json.bool true),
      ("kanji_correct", Json.str "水"), ("kanji_detected", Json.str "水"),
      ("reason", Json.str "close match")]))
    (fun _ => "raw")
    [("target_word", Json.str "water"), ("image", Json.str "QUJD")]
    (grade_kanji_message (Json.str "water") (Json.str "QUJD"))
    [("correct", Json.bool true), ("kanji_correct", Json.str "水"),
     ("kanji_detected", Json.str "水"), ("reason", Json.str "close match")]
    rfl rfl

/-- Counterexample to C6 as stated: on the spec's example the response is
not "exactly that object plus `similarity: null`" — it also carries
`pronouce_in_romanji: null` and `pronouce_in_hiragana: null`. -/
theorem claim_C6_counterexample :
    grade_kanji
      (fun _ => some (Json.obj [("correct", Json.bool true),
        ("kanji_correct", Json.str "水"), ("kanji_detected", Json.str "水"),
        ("reason", Json.str "close match")]))
      (fun _ => "raw")
      [("target_word", Json.str "water"), ("image", Json.str "QUJD")] =
    .ok [("correct", Json.bool true), ("kanji_detected", Json.str "水"),
         ("kanji_correct", Json.str "水"), ("pronouce_in_romanji", Json.null),
         ("pronouce_in_hiragana", Json.null), ("similarity", Json.null),
         ("reason", Json.str "close match")] ∧
    ([("correct", Json.bool true), ("kanji_detected", Json.str "水"),
      ("kanji_correct", Json.str "水"), ("pronouce_in_romanji", Json.null),
      ("pronouce_in_hiragana", Json.null), ("similarity", Json.null),
      ("reason", Json.str "close match")] :
        List (String × Json)) ≠
    [("correct", Json.bool true), ("kanji_correct", Json.str "水"),
     ("kanji_detected", Json.str "水"), ("reason", Json.str "close match"),
     ("similarity", Json.null)] := by
  refine ⟨rfl, fun hEq => ?_⟩
  have hlen := congrArg List.length hEq
  simp at hlen

/-- C7 (amended): every kanji grading message has exactly two ordered
parts, the text instruction first and the image reference second, while
the classification payload of `call_vllm_chat_completion` orders the image
part first and the text part second — so the order is not the
image-first order for grading, and not consistent across endpoints. -/
theorem claim_C7_message_part_order (tw img : Json) (mn du pt : String) :
    (grade_kanji_message tw img).content.map partKind =
      [PartKind.text, PartKind.image] ∧
    ((call_vllm_chat_completion_payload mn du pt).messages.map fun m =>
        m.content.map partKind) = [[PartKind.image, PartKind.text]] :=
  ⟨rfl, rfl⟩

/-- Counterexample to C7 as stated: the kanji grading message is not an
image part followed by a text part. -/
theorem claim_C7_counterexample :
    (grade_kanji_message (Json.str "water") (Json.str "QUJD")).content.map partKind ≠
      [PartKind.image, PartKind.text] := by
  decide

/-- C8: the payload built by `call_vllm_chat_completion` carries the
hard-coded text `"Classify this image."` instead of the `prompt_text`
supplied by the caller — evaluated at the classification prompt actually
passed by `/classify` and `/classify_url`. -/
theorem claim_C8_prompt_not_forwarded :
    ((call_vllm_chat_completion_payload "qwen" "data:image/png;base64,QUJD"
        classify_prompt).messages.map fun m => partTexts m.content) =
      [["Classify this image."]] ∧
    classify_prompt ≠ "Classify this image." :=
  ⟨rfl, by decide⟩

/-- Helper: on a list whose elements are all objects, the `/classify`
part scan returns (without raising) the `"text"` of the first part whose
`"type"` is `"text"` or `"output_text"`, and `null` when there is none. -/
theorem scanParts_eq_find (parts : List Json)
    (hp : ∀ p ∈ parts, ∃ pf, p = Json.obj pf) :
    scanParts parts = .ok (match parts.find? partIsText with
      | some p => partTextVal p
      | none => Json.null) := by
  induction parts with
  | nil => rfl
  | cons c rest ih =>
    obtain ⟨cf, rfl⟩ := hp c (List.mem_cons_self c rest)
    have hrest := ih fun p hp' => hp p (List.mem_cons_of_mem _ hp')
    cases ht : lookupJson cf "type" with
    | none =>
      have hpm : partIsText (Json.obj cf) = false := by simp [partIsText, ht]
      rw [List.find?_cons_of_neg _ (by simp [hpm])]
      simpa [scanParts, ht] using hrest
    | some v =>
      cases v with
      | str t =>
        by_cases hcond : (t == "output_text" || t == "text") = true
        · have hpm : partIsText (Json.obj cf) = true := by
            simp [partIsText, ht, hcond]
          rw [List.find?_cons_of_pos _ hpm]
          simp [scanParts, ht, hcond, partTextVal]
        · have hpm : partIsText (Json.obj cf) = false := by
            simp only [partIsText, ht]
            simpa using hcond
          rw [List.find?_cons_of_neg _ (by simp [hpm])]
          simp only [scanParts, ht]
          rw [if_neg hcond]
          exact hrest
      | null =>
        have hpm : partIsText (Json.obj cf) = false := by simp [partIsText, ht]
        rw [List.find?_cons_of_neg _ (by simp [hpm])]
        simpa [scanParts, ht] using hrest
      | bool b =>
        have hpm : partIsText (Json.obj cf) = false := by simp [partIsText, ht]
        rw [List.find?_cons_of_neg _ (by simp [hpm])]
        simpa [scanParts, ht] using hrest
      | num n =>
        have hpm : partIsText (Json.obj cf) = false := by simp [partIsText, ht]
        rw [List.find?_cons_of_neg _ (by simp [hpm])]
        simpa [scanParts, ht] using hrest
      | arr xs =>
        have hpm : partIsText (Json.obj cf) = false := by simp [partIsText, ht]
        rw [List.find?_cons_of_neg _ (by simp [hpm])]
        simpa [scanParts, ht] using hrest
      | obj fs2 =>
        have hpm : partIsText (Json.obj cf) = false := by simp [partIsText, ht]
        rw [List.find?_cons_of_neg _ (by simp [hpm])]
        simpa [scanParts, ht] using hrest

/-- C3: label extraction is total over arbitrary provider replies: the
endpoint always answers `{vllm_raw, label}`; an absent or empty `choices`
yields a `null` label (not an error); any modelled exception in the
`try:` body also yields a `null` label. -/
theorem claim_C3_extraction_never_fails (resp : Json) :
    classify_label_response resp =
      Json.obj [("vllm_raw", resp), ("label", extract_label resp)] ∧
    (∀ fs, resp = Json.obj fs →
      (lookupJson fs "choices" = none ∨ lookupJson fs "choices" = some (Json.arr [])) →
      extract_label resp = Json.null) ∧
    (∀ e, extract_label_try resp = Except.error e → extract_label resp = Json.null) := by
  refine ⟨rfl, ?_, ?_⟩
  · rintro fs rfl (h | h) <;>
      simp [extract_label, extract_label_try, resolve_msg, h, pyTruthy]
  · intro e he
    unfold extract_label
    rw [he]

/-- Witness for C3: a non-dict reply (the `.get` raises) and a reply with
empty `choices` both give a `null` label. -/
theorem claim_C3_witness :
    extract_label (Json.num 3) = Json.null ∧
    extract_label (Json.obj [("choices", Json.arr [])]) = Json.null :=
  ⟨(claim_C3_extraction_never_fails (Json.num 3)).2.2 "AttributeError: get" rfl,
   (claim_C3_extraction_never_fails (Json.obj [("choices", Json.arr [])])).2.1
     [("choices", Json.arr [])] rfl (Or.inr rfl)⟩

/-- C4: when the first choice's message content is a string, the label is
that string stripped of surrounding whitespace and then of enclosing
double-quote characters (Python `content.strip().strip('"')`). -/
theorem claim_C4_string_content_label (resp : Json) (s : String)
    (h : firstChoiceContent resp = some (Json.str s)) :
    extract_label resp = Json.str (pyStripQuote (pyStripWs s)) := by
  unfold firstChoiceContent at h
  cases hr : resolve_msg resp with
  | error e => rw [hr] at h; exact Option.noConfusion h
  | ok om =>
    rw [hr] at h
    rcases om with _ | msg
    · exact Option.noConfusion h
    · cases msg with
      | obj mf =>
        have h' : (lookupJson mf "content").getD .null = Json.str s :=
          Option.some.inj h
        cases hc : lookupJson mf "content" with
        | none =>
          rw [hc] at h'
          exact Json.noConfusion h'
        | some v =>
          rw [hc] at h'
          have hv : v = Json.str s := h'
          subst hv
          unfold extract_label extract_label_try
          rw [hr]
          show (match label_of_msg (Json.obj mf) with
            | .ok l => l | .error _ => Json.null) = _
          simp only [label_of_msg]
          rw [hc]
      | null => exact Option.noConfusion h
      | bool b => exact Option.noConfusion h
      | num n => exact Option.noConfusion h
      | str s' => exact Option.noConfusion h
      | arr xs => exact Option.noConfusion h

/-- Witness for C4: content `"  \"ok\"  "` yields the label `"ok"`. -/
theorem claim_C4_witness :
    extract_label (Json.obj [("choices", Json.arr [Json.obj [("message",
      Json.obj [("content", Json.str "  \"ok\"  ")])]])]) = Json.str "ok" :=
  claim_C4_string_content_label
    (Json.obj [("choices", Json.arr [Json.obj [("message",
      Json.obj [("content", Json.str "  \"ok\"  ")])]])]) "  \"ok\"  " rfl

/-- C5: when the first choice's message content is a list of parts (typed
dicts), the label is the `"text"` value of the first part whose `"type"`
is `"text"` or `"output_text"`, and stays undefined (`null`) when no part
matches. -/
theorem claim_C5_list_content_label (resp : Json) (parts : List Json)
    (h : firstChoiceContent resp = some (Json.arr parts))
    (hp : ∀ p ∈ parts, ∃ pf, p = Json.obj pf) :
    extract_label resp = (match parts.find? partIsText with
      | some p => partTextVal p
      | none => Json.null) := by
  unfold firstChoiceContent at h
  cases hr : resolve_msg resp with
  | error e => rw [hr] at h; exact Option.noConfusion h
  | ok om =>
    rw [hr] at h
    rcases om with _ | msg
    · exact Option.noConfusion h
    · cases msg with
      | obj mf =>
        have h' : (lookupJson mf "content").getD .null = Json.arr parts :=
          Option.some.inj h
        cases hc : lookupJson mf "content" with
        | none =>
          rw [hc] at h'
          exact Json.noConfusion h'
        | some v =>
          rw [hc] at h'
          have hv : v = Json.arr parts := h'
          subst hv
          unfold extract_label extract_label_try
          rw [hr]
          show (match label_of_msg (Json.obj mf) with
            | .ok l => l | .error _ => Json.null) = _
          simp only [label_of_msg]
          rw [hc]
          show (match scanParts parts with
            | .ok l => l | .error _ => Json.null) = _
          rw [scanParts_eq_find parts hp]
      | null => exact Option.noConfusion h
      | bool b => exact Option.noConfusion h
      | num n => exact Option.noConfusion h
      | str s' => exact Option.noConfusion h
      | arr xs => exact Option.noConfusion h

/-- Witness for C5: content `[{"type": "text", "text": "cat"}]` yields the
label `"cat"`. -/
theorem claim_C5_witness :
    extract_label (Json.obj [("choices", Json.arr [Json.obj [("message",
      Json.obj [("content", Json.arr [Json.obj [("type", Json.str "text"),
        ("text", Json.str "cat")]])])]])]) = Json.str "cat" :=
  claim_C5_list_content_label
    (Json.obj [("choices", Json.arr [Json.obj [("message",
      Json.obj [("content", Json.arr [Json.obj [("type", Json.str "text"),
        ("text", Json.str "cat")]])])]])])
    [Json.obj [("type", Json.str "text"), ("text", Json.str "cat")]]
    rfl
    (by
      intro p hp
      rw [List.mem_singleton] at hp
      exact ⟨_, hp⟩)

/-- Helper: decoding inverts encoding on each six-bit alphabet index. -/
theorem charSextet_sextetChar : ∀ s : Nat, s < 64 → charSextet (sextetChar s) = some s := by
  decide

/-- Helper: no alphabet character is the padding character. -/
theorem sextetChar_ne_pad : ∀ s : Nat, s < 64 → sextetChar s ≠ '=' := by
  decide

/-- Helper: the base64 encoding of a byte list is empty exactly when the
byte list is. -/
theorem b64EncodeChunks_isEmpty (bs : List Nat) :
    (b64EncodeChunks bs).isEmpty = bs.isEmpty := by
  rcases bs with _ | ⟨b0, _ | ⟨b1, _ | ⟨b2, rest⟩⟩⟩ <;> rfl

/-- Helper: base64 decoding inverts base64 encoding on byte lists. -/
theorem b64_roundtrip : ∀ bs : List Nat, (∀ b ∈ bs, b < 256) →
    b64DecodeChunks (b64EncodeChunks bs) = some bs := by
  intro bs
  induction bs using b64EncodeChunks.induct with
  | case1 b0 b1 b2 rest ih =>
    intro hb
    have hb0 : b0 < 256 := hb b0 (by simp)
    have hb1 : b1 < 256 := hb b1 (by simp)
    have hb2 : b2 < 256 := hb b2 (by simp)
    have hrest := ih fun b hbm => hb b (by simp [hbm])
    simp only [b64EncodeChunks, b64DecodeChunks, b64EncodeChunks_isEmpty]
    rcases rest with _ | ⟨r0, rrest⟩
    · simp only [List.isEmpty_nil, if_true, decodeLast4]
      rw [if_neg (sextetChar_ne_pad _ (by omega))]
      simp only [decode4full]
      rw [charSextet_sextetChar _ (by omega), charSextet_sextetChar _ (by omega),
          charSextet_sextetChar _ (by omega), charSextet_sextetChar _ (by omega)]
      simp only [Option.some.injEq, List.cons.injEq, and_true]
      refine ⟨?_, ?_, ?_⟩ <;> omega
    · simp only [List.isEmpty_cons, if_false, Bool.false_eq_true, decode4full]
      rw [charSextet_sextetChar _ (by omega), charSextet_sextetChar _ (by omega),
          charSextet_sextetChar _ (by omega), charSextet_sextetChar _ (by omega),
          hrest]
      simp only [List.cons_append, List.nil_append, Option.some.injEq,
        List.cons.injEq, and_true, true_and]
      refine ⟨?_, ?_, ?_⟩ <;> omega
  | case2 b0 b1 =>
    intro hb
    have hb0 : b0 < 256 := hb b0 (by simp)
    have hb1 : b1 < 256 := hb b1 (by simp)
    simp only [b64EncodeChunks, b64DecodeChunks, List.isEmpty_nil, if_true,
      decodeLast4, if_pos rfl]
    rw [if_neg (sextetChar_ne_pad _ (by omega))]
    rw [charSextet_sextetChar _ (by omega), charSextet_sextetChar _ (by omega),
        charSextet_sextetChar _ (by omega)]
    simp only [Option.some.injEq, List.cons.injEq, and_true]
    refine ⟨?_, ?_⟩ <;> omega
  | case3 b0 =>
    intro hb
    have hb0 : b0 < 256 := hb b0 (by simp)
    simp only [b64EncodeChunks, b64DecodeChunks, List.isEmpty_nil, if_true,
      decodeLast4, if_pos rfl]
    rw [charSextet_sextetChar _ (by omega), charSextet_sextetChar _ (by omega)]
    simp only [Option.some.injEq, List.cons.injEq, and_true]
    omega
  | case4 => intro _; rfl

/-- Helper: a list is a `isPrefixOf` of itself followed by anything. -/
theorem isPrefixOfAppendSelf : ∀ (m t : List Char), m.isPrefixOf (m ++ t) = true := by
  intro m t
  induction m with
  | nil => simp
  | cons a as ih => simp [List.isPrefixOf_cons₂, ih]

/-- Helper: an `isPrefixOf` of `x ++ rest` no longer than `x` is an
`isPrefixOf` of `x`. -/
theorem isPrefixOfOfAppend : ∀ (m x rest : List Char), m.length ≤ x.length →
    m.isPrefixOf (x ++ rest) = true → m.isPrefixOf x = true := by
  intro m
  induction m with
  | nil => intro x rest _ _; simp
  | cons a as ih =>
    intro x rest hlen hpre
    cases x with
    | nil => simp at hlen
    | cons b bs =>
      simp only [List.cons_append, List.isPrefixOf_cons₂, Bool.and_eq_true] at hpre ⊢
      exact ⟨hpre.1, ih bs rest (by simpa using hlen) hpre.2⟩

/-- Helper: dropping inside the left part of an append. -/
theorem dropAppendOfLe : ∀ (n : Nat) (x y : List Char), n ≤ x.length →
    (x ++ y).drop n = x.drop n ++ y := by
  intro n
  induction n with
  | zero => intros; rfl
  | succ k ih =>
    intro x y hlen
    cases x with
    | nil => simp at hlen
    | cons b bs => simpa using ih bs y (by simpa using hlen)

/-- Helper: `splitAfterMarker` recovers the suffix after the marker when
no occurrence of the marker starts inside the prefix. -/
theorem splitAfterMarkerAppend (marker : List Char) : ∀ (pre rest : List Char),
    marker ≠ [] →
    (∀ i, i < pre.length →
      marker.isPrefixOf ((pre ++ (marker ++ rest)).drop i) = false) →
    splitAfterMarker marker (pre ++ (marker ++ rest)) = some rest := by
  intro pre
  induction pre with
  | nil =>
    intro rest hne _
    simp only [List.nil_append]
    rcases hmk : marker with _ | ⟨c, ms⟩
    · exact absurd hmk hne
    · rw [List.cons_append]
      simp only [splitAfterMarker]
      have hpre := isPrefixOfAppendSelf (c :: ms) rest
      rw [List.cons_append] at hpre
      rw [hpre]
      simp only [if_true]
      rw [← List.cons_append, List.drop_left]
  | cons p ps ih =>
    intro rest hne H
    have h0 := H 0 (by simp)
    rw [List.drop_zero, List.cons_append] at h0
    rw [List.cons_append]
    simp only [splitAfterMarker]
    rw [h0]
    simp only [Bool.false_eq_true, if_false]
    refine ih rest hne fun i hi => ?_
    have := H (i + 1) (by simpa using Nat.succ_lt_succ hi)
    rwa [List.cons_append, List.drop_succ_cons] at this

/-- C9: encoding bytes into a data URL with `image_bytes_to_data_url` and
base64-decoding the payload after the first `"base64,"` marker reproduces
the bytes exactly.  `hb` says the input is a byte string; `hm` says the
`data:<mime>;` prefix does not itself start an occurrence of the marker
(true of every real MIME type). -/
theorem claim_C9_data_url_roundtrip (mime : String) (bs : List Nat)
    (hb : ∀ b ∈ bs, b < 256)
    (hm : ∀ i, i < ("data:" ++ mime ++ ";").data.length →
      ("base64,".data.isPrefixOf
        ((("data:" ++ mime ++ ";").data ++ "base64,".data).drop i)) = false) :
    (payloadAfterBase64Marker (image_bytes_to_data_url mime bs)).bind
      (fun p => b64DecodeChunks p.data) = some bs := by
  have hdata : (image_bytes_to_data_url mime bs).data =
      ("data:" ++ mime ++ ";").data ++
        ("base64,".data ++ (b64EncodeChunks bs)) := by
    simp only [image_bytes_to_data_url, String.data_append]
    have h1 : (";base64,").data = (";").data ++ ("base64,").data := rfl
    have h2 : (List.asString (b64EncodeChunks bs)).data = b64EncodeChunks bs := rfl
    rw [h2]
    simp [List.append_assoc]
  have hsplit : splitAfterMarker "base64,".data
      (image_bytes_to_data_url mime bs).data = some (b64EncodeChunks bs) := by
    rw [hdata]
    refine splitAfterMarkerAppend _ _ _ (by decide) fun i hi => ?_
    have hassoc : ("data:" ++ mime ++ ";").data ++
        ("base64,".data ++ b64EncodeChunks bs) =
        (("data:" ++ mime ++ ";").data ++ "base64,".data) ++
          b64EncodeChunks bs := by
      rw [List.append_assoc]
    rw [hassoc, dropAppendOfLe i _ _
      (le_trans (Nat.le_of_lt hi)
        (by rw [List.length_append]; exact Nat.le_add_right _ _))]
    cases hp : ("base64,".data.isPrefixOf
        (((("data:" ++ mime ++ ";").data ++ "base64,".data).drop i) ++
          b64EncodeChunks bs)) with
    | false => rfl
    | true =>
      exfalso
      have hlen : ("base64,".data).length ≤
          ((("data:" ++ mime ++ ";").data ++ "base64,".data).drop i).length := by
        rw [List.length_drop, List.length_append]
        omega
      have htrue := isPrefixOfOfAppend _ _ _ hlen hp
      have hfalse := hm i hi
      rw [htrue] at hfalse
      exact Bool.noConfusion hfalse
  simp only [payloadAfterBase64Marker, hsplit, Option.map_some', Option.some_bind]
  have : (List.asString (b64EncodeChunks bs)).data = b64EncodeChunks bs := rfl
  rw [this]
  exact b64_roundtrip bs hb

/-- Witness for C9: a concrete PNG MIME type and byte list round-trip. -/
theorem claim_C9_witness :
    (payloadAfterBase64Marker
        (image_bytes_to_data_url "image/png" [0, 255, 16, 7])).bind
      (fun p => b64DecodeChunks p.data) = some [0, 255, 16, 7] :=
  claim_C9_data_url_roundtrip "image/png" [0, 255, 16, 7]
    (by decide) (by decide)

end TheKanjiGame
